import Mathlib

/-!
Shallow embedding of `src/Dialect/ONNX/ONNXOps/Sequence/Sequence.cpp`
(ONNX dialect sequence operations: shape inference for SequenceEmpty,
SequenceConstruct, SequenceInsert, SequenceErase, SequenceAt and
SequenceLength, plus the shared merge helper `sequenceAddType`).

Modelling conventions, following the MLIR representation the code uses:
* A scalar element type (`Type` in MLIR, after the dtype checks) is an
  opaque tag `ScalarTy`.
* A `ShapedType` is either a ranked tensor with a list of `Int` dimensions
  (`-1` is the dynamic-dimension sentinel, as in this MLIR version) or an
  unranked tensor; both carry their scalar element type.
* A `SeqType` holds its element `ShapedType` and an `Int` length where
  `-1` encodes a statically unknown length and `n ≥ 0` a known length.
* `LogicalResult` with `emitError` is modelled as `Except String`;
  `success()` with a `setType` call is modelled by returning the committed
  type, and a branch that does not call `setType` returns the declared
  type unchanged.
-/

namespace OnnxSeq

/-- Opaque scalar element types (MLIR element `Type`s).  Only their
identity matters to the sequence shape-inference code. -/
inductive ScalarTy where
  | f32
  | f64
  | i32
  | i64
  | other (code : Nat)
deriving DecidableEq, Repr

/-- MLIR `ShapedType` restricted to tensors: either a `RankedTensorType`
with its list of dimensions (`-1` = dynamic) or an `UnrankedTensorType`. -/
inductive TensorTy where
  | ranked (dims : List Int) (elem : ScalarTy)
  | unranked (elem : ScalarTy)
deriving DecidableEq, Repr

/-- `ShapedType::getElementType()`. -/
def TensorTy.elementType : TensorTy → ScalarTy
  | .ranked _ e => e
  | .unranked e => e

/-- `ShapedType::hasRank()`. -/
def TensorTy.hasRank : TensorTy → Bool
  | .ranked _ _ => true
  | .unranked _ => false

/-- `Type::isa<UnrankedTensorType>()` (within the tensor universe). -/
def TensorTy.isUnranked (t : TensorTy) : Bool := !t.hasRank

/-- MLIR `SeqType`: element tensor type plus a length, where `-1` encodes
"statically unknown length" and `n ≥ 0` a known length (`SeqType::getLength`). -/
structure SeqTy where
  elementType : TensorTy
  length : Int
deriving DecidableEq, Repr

/-- The helper `sequenceAddType` of `Sequence.cpp` (lines 47-67): merges two
tensor types into their summary, picking "the weaker attr: known dim >
unknown dim > unranked".  The source asserts that both element types agree. -/
def sequenceAddType (accumulatedType additionalType : TensorTy) : TensorTy :=
  let elementType := accumulatedType.elementType
  match accumulatedType, additionalType with
  | .unranked _, _ => accumulatedType
  | .ranked _ _, .unranked _ => additionalType
  | .ranked acc _, .ranked add _ =>
    if acc.length ≠ add.length then .unranked elementType
    else .ranked (List.zipWith (fun a b => if a ≠ b then (-1 : Int) else b) acc add)
      elementType

/-- `ONNXSequenceAtOp::inferShapes` (lines 75-85): takes the input sequence
type and the currently-declared result type; commits the sequence element
type exactly when that element type is ranked and the declared result type
is unranked, and otherwise leaves the declared type unchanged.  Always
returns `success()`. -/
def ONNXSequenceAtOp.inferShapes (input_sequence : SeqTy) (outputType : TensorTy) :
    Except String TensorTy :=
  let inputElementType := input_sequence.elementType
  if !inputElementType.isUnranked && outputType.isUnranked then
    .ok inputElementType
  else
    .ok outputType

/-- `ONNXSequenceConstructOp::inferShapes` (lines 91-100): folds
`sequenceAddType` over the operand types starting from the first one and
commits a sequence of that summary type whose length is the operand count.
The op always has at least one operand; `none` models the out-of-bounds
access `types[0]` on an empty operand list. -/
def ONNXSequenceConstructOp.inferShapes (types : List TensorTy) : Option SeqTy :=
  match types with
  | [] => none
  | t0 :: rest =>
    let seqTensorType := rest.foldl (fun acc t => sequenceAddType acc t) t0
    some { elementType := seqTensorType, length := ((rest.length + 1 : Nat) : Int) }

/-- `ONNXSequenceEmptyOp::verify` (lines 106-123): the optional `dtype`
attribute (already resolved through `convertONNXTypeToMLIRType`, an external
mapping) defaults to `f32`; verification fails when the declared result
sequence's element scalar type disagrees with that resolved type. -/
def ONNXSequenceEmptyOp.verify (dtypeAttr : Option ScalarTy) (resultTy : SeqTy) :
    Except String Unit :=
  let elementType := dtypeAttr.getD ScalarTy.f32
  let outputSeqElementType := resultTy.elementType
  if outputSeqElementType.elementType ≠ elementType then
    .error "SequenceEmpty dtype() does not match the output type"
  else
    .ok ()

/-- `ONNXSequenceEmptyOp::inferShapes` (lines 125-132): rebuilds the result
sequence type from the declared element type with length `0`. -/
def ONNXSequenceEmptyOp.inferShapes (resultTy : SeqTy) : SeqTy :=
  let originTy := resultTy
  let elementTy := originTy.elementType
  { elementType := elementTy, length := 0 }

/-- `ONNXSequenceEraseOp::inferShapes` (lines 138-148): erasing from a
sequence of statically known length `0` fails with an error and commits
nothing; otherwise the element type is kept and the length decremented
(`-1`, unknown, stays `-1`). -/
def ONNXSequenceEraseOp.inferShapes (input_sequence : SeqTy) : Except String SeqTy :=
  let inputTy := input_sequence
  let length := inputTy.length
  if length = 0 then
    .error "SequenceErase from an empty seq"
  else
    .ok { elementType := inputTy.elementType
          length := if length = -1 then -1 else length - 1 }

/-- `ONNXSequenceInsertOp::inferShapes` (lines 175-191): inserting into a
statically empty sequence inherits the inserted tensor type with length `1`;
otherwise the element type is merged with the inserted tensor type via
`sequenceAddType` and the length incremented (`-1`, unknown, stays `-1`). -/
def ONNXSequenceInsertOp.inferShapes (seqType : SeqTy) (tensorType : TensorTy) : SeqTy :=
  let length := seqType.length
  if length = 0 then
    { elementType := tensorType, length := 1 }
  else
    let newLength : Int := if length = -1 then -1 else length + 1
    let seqTensorType := seqType.elementType
    { elementType := sequenceAddType seqTensorType tensorType, length := newLength }

/-- `ONNXSequenceLengthOp::inferShapes` (lines 197-209): commits the fixed
rank-0 `i64` tensor type unless the declared result type is already a ranked
tensor of rank 0, in which case it is left unchanged (its `i64` element type
is, per the source comment, checked by the verifier). -/
def ONNXSequenceLengthOp.inferShapes (outputTy : TensorTy) : TensorTy :=
  match outputTy with
  | .ranked dims _ => if dims.length ≠ 0 then .ranked [] ScalarTy.i64 else outputTy
  | .unranked _ => .ranked [] ScalarTy.i64

/-- Spec-side length state of a sequence: `Known n` or `Unknown`, with the
code's `Int` encoding given by `toInt` (`Unknown ↦ -1`). -/
inductive SeqLen where
  | known (n : Nat)
  | unknown
deriving DecidableEq, Repr

/-- Encoding of the spec-side length state into the code's `Int` sentinel
representation. -/
def SeqLen.toInt : SeqLen → Int
  | .known n => (n : Int)
  | .unknown => -1

/-- Spec-side dimension descriptor: a statically known nonnegative size or a
dynamic dimension. -/
inductive DimSize where
  | static (v : Nat)
  | dynamic
deriving DecidableEq, Repr

/-- Spec-side shape: unranked, or ranked with an ordered list of dimension
descriptors. -/
inductive SpecShape where
  | unrankedShape
  | rankedShape (dims : List DimSize)
deriving DecidableEq, Repr

/-- Spec-side tensor shape descriptor: scalar element data type plus shape. -/
structure SpecDescriptor where
  elementDataType : ScalarTy
  shape : SpecShape
deriving DecidableEq, Repr

/-- Per-dimension merge as the spec words it: `Static(v)` when both inputs
are `Static(v)` with equal `v`, and `Dynamic` otherwise. -/
def mergeDim : DimSize → DimSize → DimSize
  | .static v, .static w => if v = w then .static v else .dynamic
  | _, _ => .dynamic

/-- The reference definition of `merge` written from the spec's words:
either input unranked gives unranked; a rank mismatch gives unranked; equal
ranks merge dimension-wise via `mergeDim`.  It is compared against the
source's `sequenceAddType` (claim C6); it is not a translation of the code. -/
def specMerge (a b : SpecDescriptor) : SpecDescriptor :=
  match a.shape, b.shape with
  | .unrankedShape, _ => { elementDataType := a.elementDataType, shape := .unrankedShape }
  | _, .unrankedShape => { elementDataType := a.elementDataType, shape := .unrankedShape }
  | .rankedShape da, .rankedShape db =>
    if da.length ≠ db.length then
      { elementDataType := a.elementDataType, shape := .unrankedShape }
    else
      { elementDataType := a.elementDataType
        shape := .rankedShape (List.zipWith mergeDim da db) }

/-- Concretization of a spec-side dimension into the code's `Int` encoding
(`Dynamic ↦ -1`). -/
def DimSize.toInt : DimSize → Int
  | .static v => (v : Int)
  | .dynamic => -1

/-- Concretization of a spec-side descriptor into the code's tensor type. -/
def SpecDescriptor.toTensorTy : SpecDescriptor → TensorTy
  | { elementDataType := e, shape := .unrankedShape } => .unranked e
  | { elementDataType := e, shape := .rankedShape dims } =>
    .ranked (dims.map DimSize.toInt) e

theorem dim_merge_toInt (x y : DimSize) :
    (if x.toInt = y.toInt then y.toInt else (-1 : Int)) = (mergeDim x y).toInt := by
  cases x with
  | static v =>
    cases y with
    | static w =>
      by_cases hvw : v = w
      · subst hvw; simp [DimSize.toInt, mergeDim]
      · have hc : ¬ (v : Int) = (w : Int) := by exact_mod_cast hvw
        simp [DimSize.toInt, mergeDim, hc, hvw]
    | dynamic =>
      have hc : ¬ (v : Int) = -1 := by omega
      simp [DimSize.toInt, mergeDim, hc]
  | dynamic =>
    cases y with
    | static w =>
      have hc : ¬ (-1 : Int) = (w : Int) := by omega
      simp [DimSize.toInt, mergeDim, hc]
    | dynamic => simp [DimSize.toInt, mergeDim]

theorem zip_dims_toInt (da db : List DimSize) :
    List.zipWith (fun a b => if a.toInt = b.toInt then b.toInt else (-1 : Int)) da db
      = (List.zipWith mergeDim da db).map DimSize.toInt := by
  induction da generalizing db with
  | nil => simp
  | cons x xs ih =>
    cases db with
    | nil => simp
    | cons y ys => simp [ih ys, dim_merge_toInt x y]

/-- Claim C6: the source's `sequenceAddType`, run on the concretizations of
any two spec-side descriptors with equal scalar element type, computes
exactly the reference `merge` of the spec: unranked absorbs, rank mismatch
gives unranked, and equal ranks merge dimension-wise (`Static(v)` only when
both sides are the same `Static(v)`, `Dynamic` otherwise).  The merge
functions take only tensor types, so no sequence length is read or
changed. -/
theorem C6_merge_refines_spec (a b : SpecDescriptor)
    (h : a.elementDataType = b.elementDataType) :
    sequenceAddType a.toTensorTy b.toTensorTy = (specMerge a b).toTensorTy := by
  obtain ⟨ea, sa⟩ := a
  obtain ⟨eb, sb⟩ := b
  simp only at h
  subst h
  cases sa with
  | unrankedShape =>
    cases sb <;>
      simp [SpecDescriptor.toTensorTy, sequenceAddType, specMerge]
  | rankedShape da =>
    cases sb with
    | unrankedShape =>
      simp [SpecDescriptor.toTensorTy, sequenceAddType, specMerge]
    | rankedShape db =>
      by_cases hlen : da.length = db.length
      · simp [SpecDescriptor.toTensorTy, sequenceAddType, specMerge,
          TensorTy.elementType, hlen, zip_dims_toInt]
      · simp [SpecDescriptor.toTensorTy, sequenceAddType, specMerge,
          TensorTy.elementType, hlen]

/-- Witness for C6 at concrete descriptors sharing scalar type `f32`. -/
theorem C6_witness :
    (SpecDescriptor.mk ScalarTy.f32
          (SpecShape.rankedShape [DimSize.static 2, DimSize.dynamic])).elementDataType
        = (SpecDescriptor.mk ScalarTy.f32
            (SpecShape.rankedShape [DimSize.static 2, DimSize.static 3])).elementDataType ∧
      sequenceAddType
          (SpecDescriptor.mk ScalarTy.f32
            (SpecShape.rankedShape [DimSize.static 2, DimSize.dynamic])).toTensorTy
          (SpecDescriptor.mk ScalarTy.f32
            (SpecShape.rankedShape [DimSize.static 2, DimSize.static 3])).toTensorTy
        = (specMerge
            (SpecDescriptor.mk ScalarTy.f32
              (SpecShape.rankedShape [DimSize.static 2, DimSize.dynamic]))
            (SpecDescriptor.mk ScalarTy.f32
              (SpecShape.rankedShape [DimSize.static 2, DimSize.static 3]))).toTensorTy :=
  ⟨rfl, C6_merge_refines_spec _ _ rfl⟩

theorem zip_weak_comm (l1 l2 : List Int) :
    List.zipWith (fun a b => if a = b then b else (-1 : Int)) l1 l2
      = List.zipWith (fun a b => if a = b then b else (-1 : Int)) l2 l1 := by
  induction l1 generalizing l2 with
  | nil => cases l2 <;> simp
  | cons x xs ih =>
    cases l2 with
    | nil => simp
    | cons y ys =>
      by_cases hxy : x = y
      · subst hxy; simp [ih ys]
      · have hyx : ¬ y = x := fun hh => hxy hh.symm
        simp [hxy, hyx, ih ys]

theorem zip_weak_self (l : List Int) :
    List.zipWith (fun a b => if a = b then b else (-1 : Int)) l l = l := by
  induction l with
  | nil => simp
  | cons x xs ih => simp [ih]

/-- Claim C7: `sequenceAddType` is commutative on tensor types with equal
scalar element type, and idempotent on every tensor type. -/
theorem C7_merge_comm_idem (a b x : TensorTy) (h : a.elementType = b.elementType) :
    sequenceAddType a b = sequenceAddType b a ∧ sequenceAddType x x = x := by
  constructor
  · cases a with
    | unranked ea =>
      cases b with
      | unranked eb =>
        simp [TensorTy.elementType] at h
        subst h
        rfl
      | ranked db eb => rfl
    | ranked da ea =>
      cases b with
      | unranked eb => rfl
      | ranked db eb =>
        simp [TensorTy.elementType] at h
        subst h
        by_cases hlen : da.length = db.length
        · simp [sequenceAddType, TensorTy.elementType, hlen, zip_weak_comm da db]
        · simp [sequenceAddType, TensorTy.elementType, hlen, Ne.symm hlen]
  · cases x with
    | unranked e => rfl
    | ranked dims e => simp [sequenceAddType, TensorTy.elementType, zip_weak_self]

/-- Claim C1 counterexample: with `dtype = i32` and a declared result whose
element descriptor is the ranked tensor `2 x i32`, verification passes, yet
the committed element descriptor stays that ranked tensor — it is not the
unranked `i32` tensor the claim requires. -/
theorem C1_counterexample :
    ONNXSequenceEmptyOp.verify (some ScalarTy.i32)
        { elementType := TensorTy.ranked [2] ScalarTy.i32, length := 5 } = Except.ok () ∧
      (ONNXSequenceEmptyOp.inferShapes
            { elementType := TensorTy.ranked [2] ScalarTy.i32, length := 5 }).elementType
        ≠ TensorTy.unranked ScalarTy.i32 := by
  exact ⟨rfl, by decide⟩

/-- Claim C1 amended: for every Construct-Empty invocation that passes
validation, the committed result keeps the declared result's element
descriptor unchanged (so its scalar type equals the resolved one, but its
rankedness is whatever was declared) and sets length Known(0). -/
theorem C1_empty_keeps_descriptor (dtypeAttr : Option ScalarTy) (resultTy : SeqTy)
    (h : ONNXSequenceEmptyOp.verify dtypeAttr resultTy = Except.ok ()) :
    ONNXSequenceEmptyOp.inferShapes resultTy
        = { elementType := resultTy.elementType, length := 0 } ∧
      (ONNXSequenceEmptyOp.inferShapes resultTy).elementType.elementType
        = dtypeAttr.getD ScalarTy.f32 := by
  refine ⟨rfl, ?_⟩
  by_cases hc : resultTy.elementType.elementType = dtypeAttr.getD ScalarTy.f32
  · exact hc
  · exfalso
    simp [ONNXSequenceEmptyOp.verify, hc] at h

/-- Witness for the amended C1 at `dtype = i32` and a declared unranked
`i32` element descriptor. -/
theorem C1_empty_witness :
    ONNXSequenceEmptyOp.verify (some ScalarTy.i32)
        { elementType := TensorTy.unranked ScalarTy.i32, length := 7 } = Except.ok () ∧
      (ONNXSequenceEmptyOp.inferShapes
            { elementType := TensorTy.unranked ScalarTy.i32, length := 7 }
          = { elementType :=
                ({ elementType := TensorTy.unranked ScalarTy.i32, length := 7 } : SeqTy).elementType
              length := 0 } ∧
        (ONNXSequenceEmptyOp.inferShapes
              { elementType := TensorTy.unranked ScalarTy.i32, length := 7 }).elementType.elementType
          = (some ScalarTy.i32).getD ScalarTy.f32) :=
  ⟨rfl, C1_empty_keeps_descriptor _ _ rfl⟩

/-- Claim C2 counterexample: when the declared result type is already the
rank-0 tensor of `f32`, Length-Query leaves it unchanged, so the final
result type is not the fixed rank-0 `i64` tensor type the claim requires. -/
theorem C2_counterexample :
    ONNXSequenceLengthOp.inferShapes (TensorTy.ranked [] ScalarTy.f32)
      ≠ TensorTy.ranked [] ScalarTy.i64 := by
  decide

/-- Claim C2 amended: Length-Query commits the fixed rank-0 `i64` tensor
type whenever the declared result type is not already a rank-0 ranked
tensor; a declared rank-0 ranked tensor is left unchanged (its `i64`
element type is checked separately by the verifier). -/
theorem C2_length_fixed_type (outputTy : TensorTy) :
    (∃ e, outputTy = TensorTy.ranked [] e ∧
        ONNXSequenceLengthOp.inferShapes outputTy = outputTy) ∨
      ((∀ e, ¬ outputTy = TensorTy.ranked [] e) ∧
        ONNXSequenceLengthOp.inferShapes outputTy = TensorTy.ranked [] ScalarTy.i64) := by
  cases outputTy with
  | unranked e =>
    right
    refine ⟨?_, rfl⟩
    intro e2 h2
    exact TensorTy.noConfusion h2
  | ranked dims e =>
    cases dims with
    | nil => exact Or.inl ⟨e, rfl, rfl⟩
    | cons d ds =>
      right
      constructor
      · intro e2 h2
        simp at h2
      · simp [ONNXSequenceLengthOp.inferShapes]

/-- Claim C3: Insert into a statically-empty sequence inherits the inserted
tensor type exactly (no merge) with length Known(1); into Known(k), k > 0,
it merges via `sequenceAddType` and sets Known(k+1); into Unknown it merges
and keeps the length Unknown. -/
theorem C3_insert (elemTy : TensorTy) (l : SeqLen) (tensorType : TensorTy) :
    ONNXSequenceInsertOp.inferShapes { elementType := elemTy, length := l.toInt } tensorType
      = match l with
        | .known 0 => { elementType := tensorType, length := 1 }
        | .known (k + 1) =>
          { elementType := sequenceAddType elemTy tensorType, length := (k : Int) + 2 }
        | .unknown =>
          { elementType := sequenceAddType elemTy tensorType, length := -1 } := by
  cases l with
  | known n =>
    cases n with
    | zero => rfl
    | succ k =>
      have h0 : ¬ ((k : Int) + 1) = 0 := by omega
      have h1 : ¬ ((k : Int) + 1) = -1 := by omega
      simp [ONNXSequenceInsertOp.inferShapes, SeqLen.toInt, h0, h1, SeqTy.mk.injEq]
      omega
  | unknown => rfl

/-- Claim C4: Erase fails, with the empty-sequence-erase error and no
committed type, exactly when the input sequence's length is Known(0). -/
theorem C4_erase_fails_iff (elemTy : TensorTy) (l : SeqLen) :
    ONNXSequenceEraseOp.inferShapes { elementType := elemTy, length := l.toInt }
        = Except.error "SequenceErase from an empty seq"
      ↔ l = SeqLen.known 0 := by
  cases l with
  | known n =>
    cases n with
    | zero => simp [ONNXSequenceEraseOp.inferShapes, SeqLen.toInt]
    | succ k =>
      have h0 : ¬ ((k : Int) + 1) = 0 := by omega
      simp [ONNXSequenceEraseOp.inferShapes, SeqLen.toInt, h0]
  | unknown =>
    simp [ONNXSequenceEraseOp.inferShapes, SeqLen.toInt]

/-- Claim C5: whenever the input length is not Known(0), Erase succeeds and
commits the input's element descriptor unchanged, with length Known(k-1)
for a Known(k) input and Unknown for an Unknown input. -/
theorem C5_erase_ok (elemTy : TensorTy) (l : SeqLen) (h : ¬ l = SeqLen.known 0) :
    ONNXSequenceEraseOp.inferShapes { elementType := elemTy, length := l.toInt }
      = Except.ok
          { elementType := elemTy
            length := match l with
                      | .known k => (k : Int) - 1
                      | .unknown => -1 } := by
  cases l with
  | known n =>
    cases n with
    | zero => exact absurd rfl h
    | succ k =>
      have h0 : ¬ ((k : Int) + 1) = 0 := by omega
      have h1 : ¬ ((k : Int) + 1) = -1 := by omega
      simp [ONNXSequenceEraseOp.inferShapes, SeqLen.toInt, h0, h1]
  | unknown => rfl

/-- Witness for C5 at a sequence of Known(2) unranked `f32` tensors. -/
theorem C5_witness :
    ¬ SeqLen.known 2 = SeqLen.known 0 ∧
      ONNXSequenceEraseOp.inferShapes
          { elementType := TensorTy.unranked ScalarTy.f32, length := (SeqLen.known 2).toInt }
        = Except.ok
            { elementType := TensorTy.unranked ScalarTy.f32, length := ((2 : Nat) : Int) - 1 } :=
  ⟨by decide, C5_erase_ok _ _ (by decide)⟩

/-- Claim C8: Construct-From-List on n ≥ 1 operands commits length Known(n)
exactly, with element descriptor the left-fold of the operand types through
`sequenceAddType` started from the first operand; for a single operand it
is exactly that operand's type. -/
theorem C8_construct (t0 : TensorTy) (rest : List TensorTy) :
    ONNXSequenceConstructOp.inferShapes (t0 :: rest)
        = some { elementType := List.foldl sequenceAddType t0 rest
                 length := (((t0 :: rest).length : Nat) : Int) } ∧
      ONNXSequenceConstructOp.inferShapes [t0] = some { elementType := t0, length := 1 } := by
  constructor
  · rfl
  · rfl

/-- Claim C9: Index-Access replaces the declared result type with the
sequence's element descriptor exactly when that descriptor is not unranked
and the declared result type is unranked; in every other case the declared
result type is returned unchanged. -/
theorem C9_at_tighten (s : SeqTy) (outputType : TensorTy) :
    ONNXSequenceAtOp.inferShapes s outputType
      = Except.ok
          (if s.elementType.isUnranked = false ∧ outputType.isUnranked = true
            then s.elementType else outputType) := by
  cases h1 : s.elementType.isUnranked <;> cases h2 : outputType.isUnranked <;>
    simp [ONNXSequenceAtOp.inferShapes, h1, h2]

/-- Claim C10: Index-Access never fails: for every element descriptor and
every length state — Known(0) included — it returns success; its result
does not depend on the sequence's length at all (so there is no emptiness,
bounds or dtype validation); and when the tightening condition does not
hold it returns the declared result type unchanged. -/
theorem C10_at_never_fails (elemTy : TensorTy) (l : SeqLen) (outputType : TensorTy) :
    (∃ t, ONNXSequenceAtOp.inferShapes { elementType := elemTy, length := l.toInt } outputType
        = Except.ok t) ∧
      ONNXSequenceAtOp.inferShapes { elementType := elemTy, length := l.toInt } outputType
          = ONNXSequenceAtOp.inferShapes
              { elementType := elemTy, length := SeqLen.unknown.toInt } outputType ∧
      ((elemTy.isUnranked = false ∧ outputType.isUnranked = true) ∨
        ONNXSequenceAtOp.inferShapes { elementType := elemTy, length := l.toInt } outputType
          = Except.ok outputType) := by
  refine ⟨?_, rfl, ?_⟩
  · by_cases hb : (!elemTy.isUnranked && outputType.isUnranked) = true
    · exact ⟨elemTy, by simp [ONNXSequenceAtOp.inferShapes, hb]⟩
    · exact ⟨outputType, by simp [ONNXSequenceAtOp.inferShapes, hb]⟩
  · cases h1 : elemTy.isUnranked with
    | true =>
      right
      simp [ONNXSequenceAtOp.inferShapes, h1]
    | false =>
      cases h2 : outputType.isUnranked with
      | true => exact Or.inl ⟨rfl, rfl⟩
      | false =>
        right
        simp [ONNXSequenceAtOp.inferShapes, h2]

/-- Witness for C7 at concrete tensor types sharing scalar type `f32`. -/
theorem C7_witness :
    (TensorTy.ranked [2, -1] ScalarTy.f32).elementType
        = (TensorTy.ranked [2, 3] ScalarTy.f32).elementType ∧
      (sequenceAddType (TensorTy.ranked [2, -1] ScalarTy.f32)
            (TensorTy.ranked [2, 3] ScalarTy.f32)
          = sequenceAddType (TensorTy.ranked [2, 3] ScalarTy.f32)
              (TensorTy.ranked [2, -1] ScalarTy.f32) ∧
        sequenceAddType (TensorTy.ranked [5] ScalarTy.i32)
            (TensorTy.ranked [5] ScalarTy.i32)
          = TensorTy.ranked [5] ScalarTy.i32) :=
  ⟨rfl, C7_merge_comm_idem _ _ _ rfl⟩

end OnnxSeq
